import Mathlib

/-!
Verification of the `game/net/core.py` session layer (NetManager /
NetManagerThread): framing codec, connection state machine, receive loop,
and teardown behaviour, shallowly embedded in Lean.

Conventions of the embedding:
* Python `bytes` objects are `List Nat` (each element a byte value `< 256`).
* `pickle.dumps` / `pickle.loads` are abstracted as a `Codec` record; the
  round-trip contract of `pickle` is an explicit hypothesis where needed, and
  `miniCodec` is a concrete executable instance (a self-delimiting,
  STOP-terminated encoding, structurally like pickle's) used for witnesses.
* `struct.pack("i", n)` / `struct.unpack("i", b)` are `packInt` /
  `unpackInt4`: 4-byte little-endian signed 32-bit integers; `pack` raises
  (`none`) when the value does not fit, `unpack` raises (`none`) unless given
  exactly 4 bytes.
* Exceptions are modelled by `Option`/explicit outcome constructors; a Lean
  function that always returns models Python code that never raises.
-/

/-- Abstraction of the `pickle` serializer used by `core.py`:
`dumps` serializes a value to bytes, `loads` deserializes (`none` models a
raised deserialization exception). -/
structure Codec (V : Type) where
  dumps : V → List Nat
  loads : List Nat → Option V

/-- The documented contract of `pickle`: `loads(dumps(v)) == v`.  This is the
"accepted by the Framing Codec" premise of the spec, stated as a hypothesis. -/
def Codec.RoundTrip {V : Type} (c : Codec V) : Prop :=
  ∀ v : V, c.loads (c.dumps v) = some v

/-- The 4 little-endian bytes of a nonnegative 32-bit value, as produced by
`struct.pack("i", n)` for `0 ≤ n < 2^31` (native order on the reference
x86 platform is little-endian). -/
def packIntBytes (n : Nat) : List Nat :=
  [n % 256, n / 256 % 256, n / 65536 % 256, n / 16777216 % 256]

/-- `struct.pack("i", n)` for a nonnegative length `n`: 4 bytes on success,
`none` models the `struct.error` raised when `n ≥ 2^31`. -/
def packInt (n : Nat) : Option (List Nat) :=
  if n < 2147483648 then some (packIntBytes n) else none

/-- `struct.unpack("i", bs)[0]`: requires exactly 4 bytes (`none` models
`struct.error` otherwise) and reads them as a little-endian signed 32-bit
integer. -/
def unpackInt4 (bs : List Nat) : Option Int :=
  match bs with
  | [b0, b1, b2, b3] =>
      let u : Nat := b0 + 256 * b1 + 65536 * b2 + 16777216 * b3
      some (if b3 < 128 then (u : Int) else (u : Int) - 4294967296)
  | _ => none

/-- `NetManager._pack_data` (core.py lines 48-51): serialize the value and
prepend the 4-byte packed length of the serialized payload.  `none` models
the exception path (payload too long for `struct.pack("i", ...)`). -/
def pack_data {V : Type} (c : Codec V) (v : V) : Option (List Nat) :=
  match packInt (c.dumps v).length with
  | some hdr => some (hdr ++ c.dumps v)
  | none => none

/-- The frame-decoding steps of `NetManagerThread.run` (core.py lines
165-168) applied to a byte stream `frame`: take the 4 header bytes
(`recv(4)`), unpack the length, then read up to `length` payload bytes
(`recv(length)` returns at most `length` bytes — whatever the stream holds)
and `pickle.loads` them.  A negative unpacked length models the `ValueError`
raised by `recv` on a negative argument.  Note: the source performs no check
that the number of payload bytes obtained equals the header value. -/
def decode_frame {V : Type} (c : Codec V) (frame : List Nat) : Option V :=
  match unpackInt4 (frame.take 4) with
  | none => none
  | some len =>
      if len < 0 then none
      else c.loads (List.take len.toNat (frame.drop 4))

/-- Concrete executable serializer on `Nat` used for witnesses: a unary,
STOP-terminated (byte `0`) self-delimiting encoding, mirroring pickle's
STOP-opcode-terminated stream structure. -/
def natDumps (v : Nat) : List Nat :=
  List.replicate v 1 ++ [0]

/-- Deserializer matching `natDumps`: count `1` bytes up to the STOP byte
`0`; anything else fails (`none`). -/
def natLoads : List Nat → Option Nat
  | [] => none
  | 0 :: _ => some 0
  | 1 :: rest =>
      match natLoads rest with
      | some n => some (n + 1)
      | none => none
  | _ => none

/-- The concrete witness codec. -/
def miniCodec : Codec Nat :=
  ⟨natDumps, natLoads⟩

theorem natLoads_natDumps (v : Nat) : natLoads (natDumps v) = some v := by
  induction v with
  | zero => rfl
  | succ n ih =>
      simp only [natDumps, List.replicate_succ, List.cons_append, natLoads,
        List.append_eq] at ih ⊢
      rw [ih]

theorem miniCodec_roundTrip : miniCodec.RoundTrip := by
  intro v
  exact natLoads_natDumps v

theorem packIntBytes_length (n : Nat) : (packIntBytes n).length = 4 := rfl

/-- Unpacking the packed bytes of any length `n < 2^31` recovers `n`. -/
theorem unpackInt4_packIntBytes (n : Nat) (h : n < 2147483648) :
    unpackInt4 (packIntBytes n) = some (n : Int) := by
  have h3 : n / 16777216 % 256 < 128 := by omega
  simp only [packIntBytes, unpackInt4, h3, if_pos]
  congr 1
  have : n % 256 + 256 * (n / 256 % 256) + 65536 * (n / 65536 % 256) +
      16777216 * (n / 16777216 % 256) = n := by omega
  rw [this]

/-- A stream-socket handle; `closed` records whether `close()` was called on
it. -/
structure Sock where
  closed : Bool
deriving DecidableEq, Repr

/-- The background `NetManagerThread` as seen from the `NetManager`:
only its liveness matters to the session state machine. -/
structure ThreadH where
  alive : Bool
deriving DecidableEq, Repr

/-- The `NetManager` state (core.py lines 11-18): role flag, resolved host,
port, optional background thread, the shared stop `Event`, the optional
connected socket handle and the inbound FIFO queue (front = oldest). -/
structure NetManager (V : Type) where
  as_server : Bool
  host : String
  port : Nat
  listen_thread : Option ThreadH
  stop_event : Bool
  client : Option Sock
  data_queue : List V
deriving DecidableEq, Repr

/-- `NetManager.__init__(as_server, host=None, port=11111)` (lines 11-18).
`hostname` is the value `socket.gethostname()` returns on this machine;
`host`/`port` are `none` when the caller omits the argument, in which case
the source defaults apply: `host` falls back to `gethostname()` and `port`
to `11111`. -/
def mkNetManager (V : Type) (hostname : String) (as_server : Bool)
    (host : Option String) (port : Option Nat) : NetManager V :=
  ⟨as_server, (match host with | some h => h | none => hostname),
    (match port with | some p => p | none => 11111), none, false, none, []⟩

/-- Whether the session currently has a live background thread. -/
def threadAlive {V : Type} (m : NetManager V) : Bool :=
  match m.listen_thread with
  | some t => t.alive
  | none => false

/-- `NetManager.connect` (lines 20-34): if no thread exists or the existing
one is no longer alive, spawn and start a fresh `NetManagerThread`;
otherwise do nothing.  The returned `Bool` records whether a new thread was
spawned (and hence whether any new callback invocation can ever occur). -/
def connect {V : Type} (m : NetManager V) : NetManager V × Bool :=
  match m.listen_thread with
  | some t =>
      if t.alive then (m, false)
      else ({ m with listen_thread := some ⟨true⟩ }, true)
  | none => ({ m with listen_thread := some ⟨true⟩ }, true)

/-- `NetManager.disconnect` (lines 36-41): set the stop event; if a client
handle is held, `close()` it; if the background thread is alive, `join()` it.
Joining is modelled together with its observable effect: the live thread is
either in its receive loop — whose unconditional `finally` closes the handle
and sets `net_man.client = None` before the thread ends — or still
establishing, in which case `net_man.client` is `None` and stays `None` or is
set and then cleared by that same `finally` once the stop event (already set
here) ends the loop; in every case `client` is `None` when `join` returns. -/
def disconnect {V : Type} (m : NetManager V) : NetManager V :=
  let m1 : NetManager V := { m with stop_event := true }
  let m2 : NetManager V :=
    match m1.client with
    | some _ => { m1 with client := some ⟨true⟩ }
    | none => m1
  match m2.listen_thread with
  | some t =>
      if t.alive then { m2 with listen_thread := some ⟨false⟩, client := none }
      else m2
  | none => m2

/-- `NetManager.is_connected` (lines 43-46): true iff a client handle is
held. -/
def is_connected {V : Type} (m : NetManager V) : Bool :=
  match m.client with
  | none => false
  | some _ => true

/-- Outcome of the one `sendall` call inside `send`'s `try` block. -/
inductive SendOutcome where
  | ok
  | raisesOnWrite
deriving DecidableEq, Repr

/-- `NetManager.send` (lines 53-68).  The returned `Option Nat` is the Python
return value: `some 0` for success, `some 1` for "not connected", and `none`
for Python's implicit `None` — the `except Exception` branch only logs and
falls off the end of the function.  Everything inside the `try` is covered by
`except Exception`, so `send` never raises; it is modelled as a total
function.  The session state is returned unchanged on every path. -/
def send {V : Type} (c : Codec V) (m : NetManager V) (w : SendOutcome) :
    Option Nat × NetManager V :=
  match m.client with
  | none => (some 1, m)
  | some _ =>
      match w with
      | .ok => (some 0, m)
      | .raisesOnWrite => (none, m)

/-- `NetManager.recv` (lines 70-73): non-blocking pop of the oldest queued
value, `none` when the queue is empty. -/
def netRecv {V : Type} (m : NetManager V) : Option V × NetManager V :=
  match m.data_queue with
  | [] => (none, m)
  | v :: rest => (some v, { m with data_queue := rest })

/-- Result of one `self.client.recv(n)` call in the receive loop: bytes
obtained (at most `n`, possibly fewer — a short read), or one of the
exceptions the loop handles (`socket.timeout`, `ConnectionResetError`,
`OSError`). -/
inductive RecvOutcome where
  | bytes (bs : List Nat)
  | timeout
  | reset
  | oserr
deriving DecidableEq, Repr

/-- Environment of one receive-loop iteration (lines 163-174): the stop-flag
value observed by the loop condition, the result of `recv(4)` for the header
and the result of `recv(length)` for the payload (consulted only when the
iteration gets that far). -/
structure LoopIter where
  stopSet : Bool
  hdrRead : RecvOutcome
  payloadRead : RecvOutcome
deriving DecidableEq, Repr

/-- Why the receive loop ended: stop flag observed set, `ConnectionResetError`,
`OSError`, any other exception (struct/ValueError/pickle — logged then
`break`), or `ranOut` — an artifact meaning the supplied iteration
environment was exhausted with the loop still running. -/
inductive ExitReason where
  | stopFlag
  | reset
  | oserr
  | error
  | ranOut
deriving DecidableEq, Repr

/-- Outcome of the body of one receive-loop iteration. -/
inductive IterRes (V : Type) where
  | cont
  | push (v : V)
  | brk (r : ExitReason)
deriving DecidableEq, Repr

/-- The `try` body of one receive-loop iteration (lines 164-174):
`recv(4)`; `struct.unpack("i", ...)` (raises unless exactly 4 bytes);
`recv(length)` (raises `ValueError` if `length` is negative); then
`pickle.loads`.  `socket.timeout` is caught first and continues the loop;
`ConnectionResetError` and `OSError` break; any other exception is logged
and breaks.  The number of payload bytes obtained is never compared with the
unpacked header value. -/
def recvIter {V : Type} (c : Codec V) (it : LoopIter) : IterRes V :=
  match it.hdrRead with
  | .timeout => .cont
  | .reset => .brk .reset
  | .oserr => .brk .oserr
  | .bytes bl =>
      match unpackInt4 bl with
      | none => .brk .error
      | some len =>
          if len < 0 then .brk .error
          else
            match it.payloadRead with
            | .timeout => .cont
            | .reset => .brk .reset
            | .oserr => .brk .oserr
            | .bytes bd =>
                match c.loads bd with
                | none => .brk .error
                | some v => .push v

/-- The receive loop (lines 163-178): before each iteration the stop flag is
checked; decoded values are `put` on the inbound queue in order.  Returns
the pushed values and the reason the loop ended. -/
def recvLoop {V : Type} (c : Codec V) : List LoopIter → List V × ExitReason
  | [] => ([], .ranOut)
  | it :: rest =>
      if it.stopSet then ([], .stopFlag)
      else
        match recvIter c it with
        | .cont => recvLoop c rest
        | .push v =>
            let (q, r) := recvLoop c rest
            (v :: q, r)
        | .brk r => ([], r)

/-- Result of one non-blocking `server.accept()` attempt (lines 142-147):
a connection was accepted, `BlockingIOError` (sleep 100ms and poll again),
or some other exception `e` (propagates to the outer handler). -/
inductive AcceptRes where
  | accepted
  | wouldBlock
  | raises (e : String)
deriving DecidableEq, Repr

/-- How connection establishment ended. -/
inductive EstOutcome where
  | ok
  | stopped
  | failed (e : String)
  | undet
deriving DecidableEq, Repr

/-- The listener accept loop (lines 141-150): `while not stop_event.is_set()`
poll `accept()`; `break` on success, sleep and retry on `BlockingIOError`;
the `while`-`else` arm (loop condition became false: stop flag observed set)
returns without invoking the callback.  `stop i` is the stop-flag value the
`i`-th condition check observes; `polls` supplies the successive `accept()`
results; `.undet` is an artifact meaning `polls` ran out first. -/
def serverLoop (stop : Nat → Bool) : List AcceptRes → Nat → EstOutcome
  | polls, i =>
    if stop i then .stopped
    else
      match polls with
      | [] => .undet
      | .accepted :: _ => .ok
      | .raises e :: _ => .failed e
      | .wouldBlock :: rest => serverLoop stop rest (i + 1)

/-- Environment of one `NetManagerThread.run` execution: the outcome of
`bind`/`listen`/`setblocking` (listener role), the stop-flag observations and
`accept()` results of the accept loop, the outcome of `connect()` (initiator
role), and the per-iteration environment of the receive loop. -/
structure RunEnv where
  bindErr : Option String
  stop : Nat → Bool
  polls : List AcceptRes
  connectErr : Option String
  iters : List LoopIter

/-- Which path a `run` execution took: stop flag observed before an accept
(clean shutdown, no callback), establishment exception `e`, connected (with
the receive loop's exit reason), or `undet` — the artifact path where the
supplied environment was exhausted during the accept loop. -/
inductive RunPath where
  | stopped
  | failed (e : String)
  | connected (r : ExitReason)
  | undet
deriving DecidableEq, Repr

/-- Observables of one `run` execution: callback invocations in order (the
argument is `none` for success, `some e` for an establishment error), the
path taken, the final state of the thread's own stream handle (`none` when no
stream connection was established), and the bind/target address used by the
listener/initiator role respectively. -/
structure RunResult where
  callbacks : List (Option String)
  path : RunPath
  sock : Option Sock
  bindAddr : Option (String × Nat)
  targetAddr : Option (String × Nat)
deriving DecidableEq, Repr

/-- Lines 151-182 of `run`, common to both roles once a stream socket is
established: `setblocking(True)`, `settimeout(0.1)`, publish the handle via
`net_man.client = self.client`, invoke `connect_callback(None)`, then run the
receive loop under `try`/`finally`; the `finally` closes the handle and sets
`net_man.client = None`.  On the `ranOut` artifact (environment exhausted,
loop still running) the `finally` has not yet run, so the published handle
is still in place. -/
def afterEstablish {V : Type} (c : Codec V) (m : NetManager V) (env : RunEnv)
    (bA tA : Option (String × Nat)) : NetManager V × RunResult :=
  if (recvLoop c env.iters).2 = ExitReason.ranOut then
    ({ m with
        client := some (Sock.mk false)
        data_queue := m.data_queue ++ (recvLoop c env.iters).1 },
      ⟨[none], .connected .ranOut, some (Sock.mk false), bA, tA⟩)
  else
    ({ m with
        client := none
        data_queue := m.data_queue ++ (recvLoop c env.iters).1 },
      ⟨[none], .connected (recvLoop c env.iters).2, some (Sock.mk true), bA, tA⟩)

/-- The establishment phase of `run` (lines 135-161): listener role —
`bind`/`listen`/`setblocking(False)` (any exception is `.failed`), then the
accept poll loop; initiator role — blocking `connect` (any exception is
`.failed`, otherwise established).  Only the listener role ever observes the
stop flag during establishment. -/
def establish {V : Type} (m : NetManager V) (env : RunEnv) : EstOutcome :=
  if m.as_server then
    match env.bindErr with
    | some e => .failed e
    | none => serverLoop env.stop env.polls 0
  else
    match env.connectErr with
    | some e => .failed e
    | none => .ok

/-- `NetManagerThread.run` (lines 134-182).  Establishment as in `establish`;
the `while`-`else` arm (`.stopped`: stop flag observed before an accept)
returns with no callback; an establishment exception `e` is caught by the
outer handler which invokes `connect_callback(e)` and returns; on success the
execution falls through to `afterEstablish`.  The first component of the
result is the `NetManager` state when the thread ends (or, on artifact paths,
when the supplied environment ends). -/
def runThread {V : Type} (c : Codec V) (m : NetManager V) (env : RunEnv) :
    NetManager V × RunResult :=
  let bA : Option (String × Nat) :=
    if m.as_server then some (m.host, m.port) else none
  let tA : Option (String × Nat) :=
    if m.as_server then none else some (m.host, m.port)
  match establish m env with
  | .stopped => (m, ⟨[], .stopped, none, bA, tA⟩)
  | .undet => (m, ⟨[], .undet, none, bA, tA⟩)
  | .failed e => (m, ⟨[some e], .failed e, none, bA, tA⟩)
  | .ok => afterEstablish c m env bA tA

/-- The callback trace each path produces. -/
def pathCallbacks : RunPath → List (Option String)
  | .stopped => []
  | .undet => []
  | .failed e => [some e]
  | .connected _ => [none]

theorem runThread_callbacks_eq {V : Type} (c : Codec V) (m : NetManager V)
    (env : RunEnv) :
    (runThread c m env).2.callbacks = pathCallbacks (runThread c m env).2.path := by
  unfold runThread
  cases he : establish m env
  case ok =>
    unfold afterEstablish
    by_cases hq : (recvLoop c env.iters).2 = ExitReason.ranOut <;>
      simp [hq, pathCallbacks]
  all_goals rfl

theorem establish_stopped_server {V : Type} (m : NetManager V) (env : RunEnv)
    (h : establish m env = EstOutcome.stopped) : m.as_server = true := by
  unfold establish at h
  by_cases hs : m.as_server = true
  · exact hs
  · rw [if_neg (by simp [hs])] at h
    cases hce : env.connectErr <;> rw [hce] at h <;> cases h

theorem runThread_path_stopped_server {V : Type} (c : Codec V)
    (m : NetManager V) (env : RunEnv)
    (h : (runThread c m env).2.path = RunPath.stopped) : m.as_server = true := by
  unfold runThread at h
  cases he : establish m env
  case stopped => exact establish_stopped_server m env he
  case ok =>
    rw [he] at h
    unfold afterEstablish at h
    by_cases hq : (recvLoop c env.iters).2 = ExitReason.ranOut <;> simp [hq] at h
  all_goals rw [he] at h; cases h

theorem serverLoop_stopped (stop : Nat → Bool) (polls : List AcceptRes)
    (i : Nat) (h : stop i = true) : serverLoop stop polls i = EstOutcome.stopped := by
  unfold serverLoop
  rw [h]
  rfl

theorem recvLoop_stopped {V : Type} (c : Codec V) (it : LoopIter)
    (rest : List LoopIter) (h : it.stopSet = true) :
    recvLoop c (it :: rest) = ([], ExitReason.stopFlag) := by
  unfold recvLoop
  rw [h]
  rfl

/-- A concrete connected session (post-establishment): live background
thread, open client handle. -/
def sessionConnected : NetManager Nat :=
  ⟨false, "peer", 11111, some ⟨true⟩, false, some ⟨false⟩, []⟩

/-- A run environment in which every stop-flag observation reads `true` and
no establishment step raises. -/
def envStopped : RunEnv :=
  ⟨none, fun _ => true, [], none, [⟨true, RecvOutcome.timeout, RecvOutcome.timeout⟩]⟩

/-- A listener-role run environment whose `bind` raises `OSError`. -/
def envBindFail : RunEnv :=
  ⟨some "OSError", fun _ => true, [], none, []⟩

/-- An initiator-role run environment: `connect` succeeds, then the first
receive hits `ConnectionResetError`. -/
def envReset : RunEnv :=
  ⟨none, fun _ => false, [], none, [⟨false, RecvOutcome.reset, RecvOutcome.reset⟩]⟩

/-- Claim C1: for every value `v` accepted by the Framing Codec (pickle
round-trips it and its serialization fits `struct.pack("i", ...)`),
`_pack_data` produces a 4-byte length header followed by the serialized
payload, and the receive-side decoding of that header and payload returns a
value equal to `v` (round-trip law). -/
theorem framing_codec_roundtrip {V : Type} (c : Codec V) (hc : c.RoundTrip)
    (v : V) (h : (c.dumps v).length < 2147483648) :
    pack_data c v = some (packIntBytes (c.dumps v).length ++ c.dumps v)
    ∧ (packIntBytes (c.dumps v).length).length = 4
    ∧ decode_frame c (packIntBytes (c.dumps v).length ++ c.dumps v) = some v := by
  refine ⟨by unfold pack_data packInt; rw [if_pos h], rfl, ?_⟩
  unfold decode_frame
  have htake : (packIntBytes (c.dumps v).length ++ c.dumps v).take 4
      = packIntBytes (c.dumps v).length := rfl
  have hdrop : (packIntBytes (c.dumps v).length ++ c.dumps v).drop 4
      = c.dumps v := rfl
  rw [htake, hdrop, unpackInt4_packIntBytes _ h]
  show (if (((c.dumps v).length : Int)) < 0 then none
      else c.loads (List.take ((c.dumps v).length : Int).toNat (c.dumps v)))
    = some v
  rw [if_neg (by exact Int.not_lt.mpr (Int.natCast_nonneg _))]
  rw [show ((c.dumps v).length : Int).toNat = (c.dumps v).length from
    Int.toNat_natCast _]
  rw [List.take_length]
  exact hc v

/-- Witness for C1 at the concrete codec and `v = 2`. -/
theorem framing_codec_roundtrip_witness :
    pack_data miniCodec 2
      = some (packIntBytes (miniCodec.dumps 2).length ++ miniCodec.dumps 2)
    ∧ (packIntBytes (miniCodec.dumps 2).length).length = 4
    ∧ decode_frame miniCodec
        (packIntBytes (miniCodec.dumps 2).length ++ miniCodec.dumps 2) = some 2 :=
  framing_codec_roundtrip miniCodec miniCodec_roundTrip 2 (by decide)

/-- Claim C3 counterexample: the receive loop does not validate the header
against the bytes actually read.  Here the header bytes unpack to 20, yet
`recv(20)` legitimately returns only 4 bytes (a short read); those 4 bytes
form a complete serialized value, so the iteration silently pushes the value
instead of surfacing a decode error — refuting "a header whose value does
not match the number of payload bytes actually read surfaces a decode
error". -/
theorem header_mismatch_not_surfaced :
    unpackInt4 [20, 0, 0, 0] = some 20
    ∧ ([1, 1, 1, 0] : List Nat).length = 4
    ∧ (20 : Int) ≠ 4
    ∧ recvIter miniCodec
        ⟨false, RecvOutcome.bytes [20, 0, 0, 0], RecvOutcome.bytes [1, 1, 1, 0]⟩
      = IterRes.push 3 := by
  refine ⟨rfl, rfl, by decide, ?_⟩
  rfl

/-- Claim C3 (amended): the 4-byte header written for a payload of length
`L < 2^31` encodes exactly `L` and unpacks back to exactly `L`; on the
receiving side, however, no comparison of the header value with the number
of payload bytes actually read is performed — the iteration's outcome is
decided solely by deserialization of the bytes read: a decode error surfaces
iff `loads` fails on them (as with a truncated serialization), while payload
bytes that happen to form a complete serialized value are accepted silently
even when their count differs from the header value. -/
theorem frame_header_exact_no_length_check {V : Type} (c : Codec V)
    (payload bd : List Nat) (h : payload.length < 2147483648) (it : LoopIter)
    (hhdr : it.hdrRead = RecvOutcome.bytes (packIntBytes payload.length))
    (hbd : it.payloadRead = RecvOutcome.bytes bd) :
    packInt payload.length = some (packIntBytes payload.length)
    ∧ unpackInt4 (packIntBytes payload.length) = some (payload.length : Int)
    ∧ recvIter c it =
        (match c.loads bd with
         | none => IterRes.brk ExitReason.error
         | some v => IterRes.push v) := by
  refine ⟨by unfold packInt; rw [if_pos h], unpackInt4_packIntBytes _ h, ?_⟩
  unfold recvIter
  rw [hhdr, hbd]
  show (match unpackInt4 (packIntBytes payload.length) with
      | none => IterRes.brk ExitReason.error
      | some len =>
          if len < 0 then IterRes.brk ExitReason.error
          else match c.loads bd with
            | none => IterRes.brk ExitReason.error
            | some v => IterRes.push v)
    = (match c.loads bd with
       | none => IterRes.brk ExitReason.error
       | some v => IterRes.push v)
  rw [unpackInt4_packIntBytes _ h]
  show (if ((payload.length : Int)) < 0 then IterRes.brk ExitReason.error
      else match c.loads bd with
        | none => IterRes.brk ExitReason.error
        | some v => IterRes.push v)
    = _
  rw [if_neg (by exact Int.not_lt.mpr (Int.natCast_nonneg _))]

/-- Witness for the amended C3: payload `[1, 1, 0]` (length 3, header packs
and unpacks to 3) and a payload read `[9]` of mismatching length 1 whose
deserialization fails, so the mismatch is detected only through the decode
failure. -/
theorem frame_header_exact_no_length_check_witness :
    packInt (3 : Nat) = some (packIntBytes 3)
    ∧ unpackInt4 (packIntBytes 3) = some (3 : Int)
    ∧ recvIter miniCodec
        ⟨false, RecvOutcome.bytes (packIntBytes 3), RecvOutcome.bytes [9]⟩
      = IterRes.brk ExitReason.error := by
  have h := frame_header_exact_no_length_check miniCodec [1, 1, 0] [9]
    (by decide) ⟨false, RecvOutcome.bytes (packIntBytes 3), RecvOutcome.bytes [9]⟩
    rfl rfl
  exact ⟨h.1, h.2.1, h.2.2⟩

/-- Claim C2 counterexample: on a connected session whose stream write
raises, `send`'s `except Exception` branch logs and then falls off the end
of the function — the Python return value is `None` (`none` here), not a
non-zero numeric failure status (the documented statuses are `0` and `1`);
so "returns a non-zero failure status" fails on the code. -/
theorem send_write_failure_returns_python_none :
    send miniCodec sessionConnected SendOutcome.raisesOnWrite
      = (none, sessionConnected)
    ∧ ¬ ∃ k : Nat, k ≠ 0
        ∧ (send miniCodec sessionConnected SendOutcome.raisesOnWrite).1 = some k := by
  refine ⟨rfl, ?_⟩
  rintro ⟨k, hk, hsome⟩
  rw [show (send miniCodec sessionConnected SendOutcome.raisesOnWrite).1 = none
    from rfl] at hsome
  cases hsome

/-- Claim C2 (amended): for every connected session, if the underlying
stream write raises, `send` catches the exception (modelled by `send` being a
total function: every path returns), logs it, and returns Python `None` — a
falsy non-status value, not a non-zero numeric status — while leaving the
whole session state (handle, thread, stop flag, queue) unchanged, so neither
the session nor the receive loop is torn down; on a successful write it
returns the success status `0`, also leaving the state unchanged. -/
theorem send_failure_caught_and_logged {V : Type} (c : Codec V)
    (m : NetManager V) (s : Sock) (h : m.client = some s) :
    send c m SendOutcome.raisesOnWrite = (none, m)
    ∧ send c m SendOutcome.ok = (some 0, m) := by
  unfold send
  rw [h]
  exact ⟨rfl, rfl⟩

/-- Witness for the amended C2 on a concrete connected session. -/
theorem send_failure_caught_and_logged_witness :
    send miniCodec sessionConnected SendOutcome.raisesOnWrite
      = (none, sessionConnected)
    ∧ send miniCodec sessionConnected SendOutcome.ok
      = (some 0, sessionConnected) :=
  send_failure_caught_and_logged miniCodec sessionConnected ⟨false⟩ rfl

/-- Claim C8: on a session holding no socket handle (no successful connect
has occurred), `send` returns the "not connected" status `1` without raising
(the function is total and takes the early-return branch before any
fallible operation) and leaves the session state unchanged. -/
theorem send_not_connected_status {V : Type} (c : Codec V) (m : NetManager V)
    (w : SendOutcome) (h : m.client = none) :
    send c m w = (some 1, m) := by
  unfold send
  rw [h]

/-- Witness for C8 on a freshly constructed session. -/
theorem send_not_connected_status_witness :
    send miniCodec (mkNetManager Nat "host" true none none) SendOutcome.ok
      = (some 1, mkNetManager Nat "host" true none none) :=
  send_not_connected_status miniCodec (mkNetManager Nat "host" true none none)
    SendOutcome.ok rfl

/-- Claim C6: calling `connect` while the background task is still alive is
a no-op — the guard `self._listen_thread is None or not
self._listen_thread.is_alive()` fails, so no second task is spawned (the
returned flag is `false`, hence no duplicate callback invocation either) and
the session state is unchanged, preserving the one-live-task invariant. -/
theorem connect_noop_when_thread_alive {V : Type} (m : NetManager V)
    (h : threadAlive m = true) :
    connect m = (m, false) := by
  unfold threadAlive at h
  unfold connect
  cases hm : m.listen_thread with
  | none => rw [hm] at h; cases h
  | some t =>
      rw [hm] at h
      have h2 : t.alive = true := h
      simp only [h2, if_true]

/-- Witness for C6 on a session with a live background task. -/
theorem connect_noop_when_thread_alive_witness :
    connect sessionConnected = (sessionConnected, false) :=
  connect_noop_when_thread_alive sessionConnected rfl

/-- Claim C7: `disconnect` sets the stop flag; afterwards any held socket
handle has been closed (or released entirely by the joined thread's
`finally`); a live background task has been waited for (no task is alive on
return); and the operation is idempotent — on an already-closed session it
changes nothing further and is safe (the model is a total function: no
statement on this path raises). -/
theorem disconnect_contract {V : Type} (m : NetManager V) :
    (disconnect m).stop_event = true
    ∧ ((disconnect m).client = none ∨ (disconnect m).client = some ⟨true⟩)
    ∧ threadAlive (disconnect m) = false
    ∧ disconnect (disconnect m) = disconnect m := by
  obtain ⟨as, hs, p, lt, se, cl, dq⟩ := m
  match lt, cl with
  | none, none => exact ⟨rfl, Or.inl rfl, rfl, rfl⟩
  | none, some s => exact ⟨rfl, Or.inr rfl, rfl, rfl⟩
  | some ⟨true⟩, none => exact ⟨rfl, Or.inl rfl, rfl, rfl⟩
  | some ⟨true⟩, some s => exact ⟨rfl, Or.inl rfl, rfl, rfl⟩
  | some ⟨false⟩, none => exact ⟨rfl, Or.inl rfl, rfl, rfl⟩
  | some ⟨false⟩, some s => exact ⟨rfl, Or.inr rfl, rfl, rfl⟩

theorem disconnect_stop_event {V : Type} (m : NetManager V) :
    (disconnect m).stop_event = true := by
  obtain ⟨as, hs, p, lt, se, cl, dq⟩ := m
  match lt, cl with
  | none, none => rfl
  | none, some s => rfl
  | some ⟨true⟩, none => rfl
  | some ⟨true⟩, some s => rfl
  | some ⟨false⟩, none => rfl
  | some ⟨false⟩, some s => rfl

theorem connect_preserves_stop {V : Type} (m : NetManager V) :
    (connect m).1.stop_event = m.stop_event := by
  unfold connect
  cases hm : m.listen_thread with
  | none => rfl
  | some t => cases ht : t.alive <;> simp [ht]

theorem send_preserves_stop {V : Type} (c : Codec V) (m : NetManager V)
    (w : SendOutcome) : (send c m w).2.stop_event = m.stop_event := by
  unfold send
  cases m.client <;> cases w <;> rfl

theorem netRecv_preserves_stop {V : Type} (m : NetManager V) :
    (netRecv m).2.stop_event = m.stop_event := by
  unfold netRecv
  cases m.data_queue <;> rfl

theorem runThread_preserves_stop {V : Type} (c : Codec V) (m : NetManager V)
    (env : RunEnv) : (runThread c m env).1.stop_event = m.stop_event := by
  unfold runThread afterEstablish
  cases he : establish m env
  case ok =>
    by_cases hq : (recvLoop c env.iters).2 = ExitReason.ranOut <;> simp [hq]
  all_goals rfl

theorem runThread_addrs {V : Type} (c : Codec V) (m : NetManager V)
    (env : RunEnv) :
    (runThread c m env).2.bindAddr
      = (if m.as_server = true then some (m.host, m.port) else none)
    ∧ (runThread c m env).2.targetAddr
      = (if m.as_server = true then none else some (m.host, m.port)) := by
  unfold runThread afterEstablish
  cases he : establish m env
  case ok =>
    by_cases hq : (recvLoop c env.iters).2 = ExitReason.ranOut <;> simp [hq]
  all_goals exact ⟨rfl, rfl⟩

/-- Claim C4: whenever a connect attempt's background task runs to
completion (every non-artifact path of the model), the connect callback is
invoked exactly once — with no error value on successful establishment, with
the error value on establishment failure — except on the cooperative-shutdown
path, which only the listener role can take: there the task exits without
invoking the callback at all. -/
theorem connect_callback_exactly_once {V : Type} (c : Codec V)
    (m : NetManager V) (env : RunEnv)
    (h : (runThread c m env).2.path ≠ RunPath.undet) :
    ((runThread c m env).2.path = RunPath.stopped ∧ m.as_server = true
      ∧ (runThread c m env).2.callbacks = [])
    ∨ (∃ e, (runThread c m env).2.path = RunPath.failed e
        ∧ (runThread c m env).2.callbacks = [some e])
    ∨ (∃ r, (runThread c m env).2.path = RunPath.connected r
        ∧ (runThread c m env).2.callbacks = [none]) := by
  have hc := runThread_callbacks_eq c m env
  cases hp : (runThread c m env).2.path with
  | stopped =>
      exact Or.inl ⟨rfl, runThread_path_stopped_server c m env hp,
        by rw [hc, hp]; rfl⟩
  | failed e => exact Or.inr (Or.inl ⟨e, rfl, by rw [hc, hp]; rfl⟩)
  | connected r => exact Or.inr (Or.inr ⟨r, rfl, by rw [hc, hp]; rfl⟩)
  | undet => exact absurd hp h

/-- Witness for C4: a listener whose stop flag is observed set before any
accept succeeds — the task completes on the shutdown path with no callback
invocation. -/
theorem connect_callback_exactly_once_witness :
    (((runThread miniCodec (mkNetManager Nat "h" true none none) envStopped).2.path
        = RunPath.stopped
      ∧ (mkNetManager Nat "h" true none none).as_server = true
      ∧ (runThread miniCodec (mkNetManager Nat "h" true none none)
          envStopped).2.callbacks = [])
    ∨ (∃ e, (runThread miniCodec (mkNetManager Nat "h" true none none)
          envStopped).2.path = RunPath.failed e
        ∧ (runThread miniCodec (mkNetManager Nat "h" true none none)
            envStopped).2.callbacks = [some e])
    ∨ (∃ r, (runThread miniCodec (mkNetManager Nat "h" true none none)
          envStopped).2.path = RunPath.connected r
        ∧ (runThread miniCodec (mkNetManager Nat "h" true none none)
            envStopped).2.callbacks = [none])) :=
  connect_callback_exactly_once miniCodec (mkNetManager Nat "h" true none none)
    envStopped (by decide)

/-- Claim C5: on every real exit of the receive loop — stop flag observed,
connection reset, I/O error, or decode failure (a read timeout does not exit
the loop; `ranOut` is the model's truncated-observation artifact, not an
exit) — the unconditional `finally` closes the socket handle and clears the
session's reference to it, so `is_connected()` returns false afterwards. -/
theorem receive_loop_unconditional_cleanup {V : Type} (c : Codec V)
    (m : NetManager V) (env : RunEnv) (r : ExitReason)
    (hp : (runThread c m env).2.path = RunPath.connected r)
    (hr : r ≠ ExitReason.ranOut) :
    (runThread c m env).1.client = none
    ∧ is_connected (runThread c m env).1 = false
    ∧ (runThread c m env).2.sock = some ⟨true⟩ := by
  unfold runThread at hp ⊢
  cases he : establish m env
  case stopped => rw [he] at hp; simp at hp
  case undet => rw [he] at hp; simp at hp
  case failed e => rw [he] at hp; simp at hp
  case ok =>
    rw [he] at hp
    unfold afterEstablish at hp ⊢
    by_cases hq : (recvLoop c env.iters).2 = ExitReason.ranOut
    · simp [hq] at hp
      exact absurd hp.symm hr
    · simp [hq, is_connected]

/-- Witness for C5: an initiator whose first receive raises
`ConnectionResetError`. -/
theorem receive_loop_unconditional_cleanup_witness :
    (runThread miniCodec (mkNetManager Nat "peer" false none none)
      envReset).1.client = none
    ∧ is_connected (runThread miniCodec (mkNetManager Nat "peer" false none none)
        envReset).1 = false
    ∧ (runThread miniCodec (mkNetManager Nat "peer" false none none)
        envReset).2.sock = some ⟨true⟩ :=
  receive_loop_unconditional_cleanup miniCodec
    (mkNetManager Nat "peer" false none none) envReset ExitReason.reset
    (by decide) (by decide)

/-- The session of the C9 scenario: constructed, disconnected, then
reconnected (a fresh background task is spawned with the same, still-set,
stop event). -/
def sessionReconnected : NetManager Nat :=
  (connect (disconnect (mkNetManager Nat "h" true none none))).1

/-- Claim C9 counterexample: after `disconnect` the stop event is latched
and `connect` does spawn a new listener task — but if `bind`/`listen` raise
(which happens before the loop ever checks the stop flag), that task invokes
the callback with the error, refuting "exits without invoking the callback
at all" for every subsequent connect. -/
theorem reconnect_bind_error_still_invokes_callback :
    sessionReconnected.stop_event = true
    ∧ (connect (disconnect (mkNetManager Nat "h" true none none))).2 = true
    ∧ (runThread miniCodec sessionReconnected envBindFail).2.callbacks
        = [some "OSError"] := by
  refine ⟨rfl, rfl, ?_⟩
  rfl

/-- Claim C9 (amended): once `disconnect` sets the shared stop event, no
operation ever clears it (`connect`, `send`, `recv` and the background
task's `run` all leave it untouched); consequently, as long as every
stop-flag observation reads `true`, a subsequent `connect`'s background task
in the listener role — provided `bind`/`listen` themselves do not raise —
exits on the `while`-`else` path without accepting a connection, without
invoking the callback and without touching the session state; and in either
role the session ends the run with no held handle, so it can never again
reach a durable connected state. -/
theorem stop_event_latched {V : Type} (c : Codec V) (m : NetManager V)
    (env : RunEnv) (w : SendOutcome)
    (hstop : ∀ i, env.stop i = true)
    (hiters : ∀ it ∈ env.iters, it.stopSet = true)
    (hne : env.iters ≠ [])
    (hcl : m.client = none)
    (hbind : env.bindErr = none) :
    (disconnect m).stop_event = true
    ∧ (connect m).1.stop_event = m.stop_event
    ∧ (send c m w).2.stop_event = m.stop_event
    ∧ (netRecv m).2.stop_event = m.stop_event
    ∧ (runThread c m env).1.stop_event = m.stop_event
    ∧ (m.as_server = true →
        (runThread c m env).2.path = RunPath.stopped
        ∧ (runThread c m env).2.callbacks = []
        ∧ (runThread c m env).1 = m)
    ∧ (runThread c m env).1.client = none := by
  have hest : m.as_server = true → establish m env = EstOutcome.stopped := by
    intro hs
    unfold establish
    rw [if_pos hs, hbind]
    exact serverLoop_stopped env.stop env.polls 0 (hstop 0)
  refine ⟨disconnect_stop_event m, connect_preserves_stop m,
    send_preserves_stop c m w, netRecv_preserves_stop m,
    runThread_preserves_stop c m env, ?_, ?_⟩
  · intro hs
    unfold runThread
    rw [hest hs]
    exact ⟨rfl, rfl, rfl⟩
  · by_cases hs : m.as_server = true
    · unfold runThread
      rw [hest hs]
      exact hcl
    · have hsf : m.as_server = false := by
        cases hb : m.as_server
        · rfl
        · exact absurd hb hs
      cases hce : env.connectErr with
      | some e =>
          have he : establish m env = EstOutcome.failed e := by
            unfold establish
            rw [if_neg (by simp [hsf]), hce]
          unfold runThread
          rw [he]
          exact hcl
      | none =>
          have he : establish m env = EstOutcome.ok := by
            unfold establish
            rw [if_neg (by simp [hsf]), hce]
          have hrl : recvLoop c env.iters = ([], ExitReason.stopFlag) := by
            cases hi : env.iters with
            | nil => exact absurd hi hne
            | cons it rest =>
                exact recvLoop_stopped c it rest
                  (hiters it (by rw [hi]; exact List.mem_cons_self it rest))
          unfold runThread afterEstablish
          rw [he]
          simp [hrl]

/-- Witness for the amended C9: the disconnect-then-reconnect listener with
every stop observation `true` and a clean bind. -/
theorem stop_event_latched_witness :
    (disconnect sessionReconnected).stop_event = true
    ∧ (connect sessionReconnected).1.stop_event = sessionReconnected.stop_event
    ∧ (send miniCodec sessionReconnected SendOutcome.ok).2.stop_event
        = sessionReconnected.stop_event
    ∧ (netRecv sessionReconnected).2.stop_event = sessionReconnected.stop_event
    ∧ (runThread miniCodec sessionReconnected envStopped).1.stop_event
        = sessionReconnected.stop_event
    ∧ (sessionReconnected.as_server = true →
        (runThread miniCodec sessionReconnected envStopped).2.path
          = RunPath.stopped
        ∧ (runThread miniCodec sessionReconnected envStopped).2.callbacks = []
        ∧ (runThread miniCodec sessionReconnected envStopped).1
          = sessionReconnected)
    ∧ (runThread miniCodec sessionReconnected envStopped).1.client = none :=
  stop_event_latched miniCodec sessionReconnected envStopped SendOutcome.ok
    (fun _ => rfl) (by decide) (by decide) rfl rfl

/-- Claim C10: a session constructed without an explicit host stores the
`socket.gethostname()` result as its host and `11111` as its port; the
listener role binds to exactly that `(host, port)` pair and the initiator
role dials exactly that pair — so neither defaults to the loopback or
wildcard address, `gethostname()` returning the machine's hostname rather
than any of those constants. -/
theorem default_host_gethostname {V : Type} (c : Codec V) (hostname : String)
    (r : Bool) (env : RunEnv)
    (h1 : hostname ≠ "") (h2 : hostname ≠ "0.0.0.0")
    (h3 : hostname ≠ "127.0.0.1") (h4 : hostname ≠ "localhost") :
    (mkNetManager V hostname r none none).host = hostname
    ∧ (mkNetManager V hostname r none none).port = 11111
    ∧ (r = true →
        (runThread c (mkNetManager V hostname r none none) env).2.bindAddr
          = some (hostname, 11111))
    ∧ (r = false →
        (runThread c (mkNetManager V hostname r none none) env).2.targetAddr
          = some (hostname, 11111))
    ∧ (mkNetManager V hostname r none none).host ≠ ""
    ∧ (mkNetManager V hostname r none none).host ≠ "0.0.0.0"
    ∧ (mkNetManager V hostname r none none).host ≠ "127.0.0.1"
    ∧ (mkNetManager V hostname r none none).host ≠ "localhost" := by
  have haddr := runThread_addrs c (mkNetManager V hostname r none none) env
  refine ⟨rfl, rfl, ?_, ?_, h1, h2, h3, h4⟩
  · intro hr
    have hh : (mkNetManager V hostname r none none).as_server = true := hr
    rw [haddr.1, hh]
    rfl
  · intro hr
    have hh : (mkNetManager V hostname r none none).as_server = false := hr
    rw [haddr.2, hh]
    rfl

/-- Witness for C10 at a concrete hostname in the listener role. -/
theorem default_host_gethostname_witness :
    (mkNetManager Nat "gamehost" true none none).host = "gamehost"
    ∧ (mkNetManager Nat "gamehost" true none none).port = 11111
    ∧ (true = true →
        (runThread miniCodec (mkNetManager Nat "gamehost" true none none)
          envReset).2.bindAddr = some ("gamehost", 11111))
    ∧ (true = false →
        (runThread miniCodec (mkNetManager Nat "gamehost" true none none)
          envReset).2.targetAddr = some ("gamehost", 11111))
    ∧ (mkNetManager Nat "gamehost" true none none).host ≠ ""
    ∧ (mkNetManager Nat "gamehost" true none none).host ≠ "0.0.0.0"
    ∧ (mkNetManager Nat "gamehost" true none none).host ≠ "127.0.0.1"
    ∧ (mkNetManager Nat "gamehost" true none none).host ≠ "localhost" :=
  default_host_gethostname miniCodec "gamehost" true envReset
    (by decide) (by decide) (by decide) (by decide)
